import Mathlib

/-!
# Verification development: portfolio data model and rendering contract

Shallow embedding of the repository's content data model (`Project`,
`Publication`, `Profile` and their primitive value types), the
`ProjectPreview` and `Greeting` presentational components, and the two
profile content registries, together with proofs of the rendering-contract
properties stated in the specification.

Rendering is embedded as a pure function from an entity (or `none`) to an
element tree.  JSX conditionals of the form `x ? e : null` test JavaScript
truthiness: for an optional array-valued field this is a *presence* test
(`undefined` is falsy), because an array — even an empty one — is truthy.
The embedding models optional fields as `Option` and such guards as matches
on the `Option`, which reproduces exactly that behaviour.
-/

namespace Portfolio

/-- Modelled from the spec: the `Tag` primitive value type (its type file is
not under `src/`): a topical label carrying a name. -/
structure Tag where
  name : String
  deriving DecidableEq

/-- Modelled from the spec: the `Link` primitive value type (its type file is
not under `src/`): a URL, optionally with display text. -/
structure Link where
  url : String
  label : Option String := none
  deriving DecidableEq

/-- Modelled from the spec: `DateString` is a calendar date serialized as
text (its type file is not under `src/`). -/
abbrev DateString := String

/-- Modelled from the spec: the `Image` value type (its type file is not
under `src/`): an asset source path with an optional caption. -/
structure Image where
  srcPath : String
  caption : Option String := none
  deriving DecidableEq

/-- Modelled from the spec: the `Project` entity (`src/types/Project.ts` is
not under `src/`; field shapes follow the spec's data-model table and the
field accesses in `ProjectPreview.tsx`): a name, summary lines (each
`string | null`, the list itself possibly absent), an optional cover image,
an optional tag list, a start date and an optional end date (absence means
"ongoing"). -/
structure Project where
  name : String
  summary : Option (List (Option String))
  cover : Option Image
  tags : Option (List Tag)
  startDate : DateString
  endDate : Option DateString
  deriving DecidableEq

/-- The closed `Publisher` enumeration of `src/types/Publication.ts`
(lines 7–22): fourteen known outlets. -/
inductive Publisher where
  | AITimeJournal
  | CodeProject
  | DOU
  | DataDrivenInvestor
  | GeeksForGeeks
  | HackerNews
  | HackerNoon
  | HowIGotJob
  | ITNEXT
  | JavaScriptInPlainEnglish
  | KDnuggets
  | Newline
  | TechCrunch
  | TowardsDataScience
  deriving DecidableEq

/-- The string value each `Publisher` member carries in
`src/types/Publication.ts`. -/
def Publisher.value : Publisher → String
  | .AITimeJournal => "AI Time Journal"
  | .CodeProject => "CodeProject"
  | .DOU => "DOU"
  | .DataDrivenInvestor => "Data Driven Investor"
  | .GeeksForGeeks => "GeeksForGeeks"
  | .HackerNews => "Hacker News"
  | .HackerNoon => "HackerNoon"
  | .HowIGotJob => "HowIGotJob"
  | .ITNEXT => "ITNEXT"
  | .JavaScriptInPlainEnglish => "JavaScript in Plain English"
  | .KDnuggets => "KDnuggets"
  | .Newline => "Newline"
  | .TechCrunch => "TechCrunch"
  | .TowardsDataScience => "Towards Data Science"

/-- Every member of the closed `Publisher` enumeration. -/
def Publisher.all : List Publisher :=
  [.AITimeJournal, .CodeProject, .DOU, .DataDrivenInvestor, .GeeksForGeeks,
   .HackerNews, .HackerNoon, .HowIGotJob, .ITNEXT, .JavaScriptInPlainEnglish,
   .KDnuggets, .Newline, .TechCrunch, .TowardsDataScience]

/-- The `Publication` entity of `src/types/Publication.ts` (lines 29–36):
title, summary lines, a link, a date, a publisher drawn from the closed
enumeration, and an optional tag list. -/
structure Publication where
  title : String
  summary : List String
  link : Link
  date : DateString
  publisher : Publisher
  tags : Option (List Tag)
  deriving DecidableEq

/-- Modelled from the spec: the place value used by `Profile.location`
(a name string; the `Profile` type file is not under `src/`). -/
structure Location where
  name : String
  deriving DecidableEq

/-- Modelled from the spec: the `Profile` entity (`src/types/Profile.ts` is
not under `src/`): `firstName` is required and every other field is
optional; an optional field omitted in a registry literal is embedded as
`none`. -/
structure Profile where
  firstName : String
  lastName : Option String
  position : Option String
  summary : Option (List String)
  avatar : Option Image
  location : Option Location
  tags : Option (List Tag)
  socialLinks : Option (List Link)
  deriving DecidableEq

/-- The detailed profile registry instance (`src/unnamed/part_000`,
lines 4–23).  The shared `socialLinks` registry it references is not under
`src/`, so its value is a parameter. -/
def profileEn (socialLinks : List Link) : Profile :=
  { firstName := "Oleksii"
    lastName := some "Trekhleb"
    position := some "Senior Software Engineer @ Uber"
    summary := some
      ["Author of 180k ★️ js-algorithms GitHub repo",
       "8+ times on HackerNews homepage",
       "15+ years of full-stack experience"]
    avatar := some { srcPath := "profile/avatar_500x500_v2.jpg", caption := some "Oleksii Trekhleb" }
    location := some { name := "Amsterdam, The Netherlands • (from Ukraine)" }
    tags := some []
    socialLinks := some socialLinks }

/-- The minimal profile registry instance (`src/unnamed/part_001`,
lines 4–21): `lastName`, `location` and `socialLinks` are commented out
(omitted), `position` is the empty string, `tags` is the empty list. -/
def profileCn : Profile :=
  { firstName := "AI时代的程序员"
    lastName := none
    position := some ""
    summary := some ["专注于AI赋能和程序员事业发展领域的分享"]
    avatar := some { srcPath := "profile/avatar_500x500.png", caption := some "AI时代的程序员" }
    location := none
    tags := some []
    socialLinks := none }

/-- The element kinds `ProjectPreview` and `Greeting` emit: the shared
presentational components they compose (`Card`, `CardMedia`, `CardContent`,
`CardTitle`, `HyperLink`) and raw markup elements with their literal class
names.  The shared components live outside `src/` and are treated as opaque
constructors, which is all the claims about these two components need. -/
inductive NodeKind where
  | card
  | cardMedia
  | cardContent
  | cardTitle
  | div (className : Option String)
  | p (className : Option String)
  | span (className : String)
  | hyperLink (link : Link) (className : String)

/-- A rendered element tree.  Leaves are text splices, the `Tags` component
applied to a tag list, the `DateRange` component applied to a start date,
optional end date and class name, and the `FluidImage` component applied to
an image; interior nodes are an element kind applied to its non-null
children (a `null` JSX child renders nothing, so an optional section enters
a child list only when present). -/
inductive Node where
  | text : String → Node
  | tagsOf : List Tag → Node
  | dateRange : DateString → Option DateString → String → Node
  | fluidImage : Image → Node
  | elem : NodeKind → List Node → Node

/-- The paragraph element rendered for one summary line
(`ProjectPreview.tsx` lines 47–51): a plain `p` element whose sole child is
the line's text; a `null` line splices no child, and the React `key` (the
list index) does not appear in the rendered tree. -/
def summaryLineNode : Option String → Node
  | some s => .elem (.p none) [.text s]
  | none => .elem (.p none) []

/-- `ProjectPreview` from `src/components/elements/ProjectPreview.tsx`
(lines 16–77).  A null project returns `null` (line 19–21).  The guards
`project?.tags ?` (line 29) and `project.summary ?` (line 46) are JS
truthiness tests on an optional array: they test presence only, since an
empty array is truthy.  `projectSummaryLines ?` (line 54) likewise tests
only that the line array is not `null`, so a present-but-empty summary
still produces the (empty) summary `div`. -/
def ProjectPreview (project : Option Project) : Option Node :=
  match project with
  | none => none
  | some project =>
    let projectName : Node := .elem .cardTitle [.text project.name]
    let projectTags : Option Node :=
      match project.tags with
      | some tags => some (.elem (.div none) [.tagsOf tags])
      | none => none
    let projectDates : Node :=
      .elem (.div (some "mb-3"))
        [.dateRange project.startDate project.endDate "text-sm text-gray-600 font-light"]
    let projectSummaryLines : Option (List Node) :=
      match project.summary with
      | some summary => some (summary.map summaryLineNode)
      | none => none
    let projectSummary : Option Node :=
      match projectSummaryLines with
      | some lines => some (.elem (.div (some "mb-3 font-light")) lines)
      | none => none
    let projectCover : Option Node :=
      match project.cover with
      | some cover => some (.fluidImage cover)
      | none => none
    some (.elem .card
      [.elem .cardMedia projectCover.toList,
       .elem .cardContent
         ([projectName] ++ projectSummary.toList ++ projectTags.toList ++ [projectDates])])

/-- Modelled from the spec: the route registry (`constants/routes`) is
outside `src/`; `Greeting` reads the `projects` and `blog` route paths from
it, so the registry is a parameter of the embedding (in the source it is a
module-level constant). -/
structure Routes where
  projectsPath : String
  blogPath : String

/-- First text line of the greeting paragraph (source line 65). -/
def greetingLine1 : String :=
  "大模型的出现让我们进入了AI时代，也给程序员这一职业带来了新的机遇和挑战。"

/-- Second text line of the greeting paragraph (source line 66). -/
def greetingLine2 : String :=
  "本网站聚焦于AI赋能，跟大家探讨AI时代的程序员们该如抓住这一历史机遇，在这一轮的技术革命中找到自己的位置，实现更好的发展。"

/-- `Greeting` from the component file concatenated into
`src/types/Publication.ts` (lines 42–69 of that file): it takes no entity
argument, builds `projectsLink`/`blogLink` values and the two hyperlink
span elements from the route registry, and returns a paragraph containing
only the two greeting text lines — the link elements are built but unused. -/
def Greeting (routes : Routes) : Node :=
  let projectsLink : Link := { url := routes.projectsPath ++ "/" }
  let blogLink : Link := { url := routes.blogPath ++ "/" }
  let projectsLinkElement : Node :=
    .elem (.span "inline-block")
      [.elem (.hyperLink projectsLink "underline underline-offset-2") [.text "projects"]]
  let blogLinkElement : Node :=
    .elem (.span "inline-block")
      [.elem (.hyperLink blogLink "underline underline-offset-2") [.text "articles"]]
  .elem (.p (some "font-light")) [.text greetingLine1, .text greetingLine2]

mutual

/-- Whether a node, or any node of its subtree, satisfies `f`. -/
def containsIf (f : Node → Bool) : Node → Bool
  | .elem k children => f (.elem k children) || containsIfList f children
  | n => f n

/-- Whether any node of a child list's subtrees satisfies `f`. -/
def containsIfList (f : Node → Bool) : List Node → Bool
  | [] => false
  | n :: ns => containsIf f n || containsIfList f ns

end

mutual

/-- All nodes of a subtree satisfying `f`, in document (pre-)order. -/
def collectIf (f : Node → Bool) : Node → List Node
  | .elem k children =>
      (if f (.elem k children) then [Node.elem k children] else []) ++ collectIfList f children
  | n => if f n then [n] else []

/-- All nodes of a child list's subtrees satisfying `f`, in document order. -/
def collectIfList (f : Node → Bool) : List Node → List Node
  | [] => []
  | n :: ns => collectIf f n ++ collectIfList f ns

end

/-- Whether a possibly-empty render (`none` renders nothing) contains a node
satisfying `f`. -/
def renderContains (f : Node → Bool) : Option Node → Bool
  | some n => containsIf f n
  | none => false

/-- All nodes satisfying `f` in a possibly-empty render, in document order. -/
def renderCollect (f : Node → Bool) : Option Node → List Node
  | some n => collectIf f n
  | none => []

/-- The tags section of `ProjectPreview` (lines 29–33), identified by the
`Tags` component it consists of: the section div and the `Tags` node are
built together and nowhere else. -/
def isTagsSection : Node → Bool
  | .tagsOf _ => true
  | _ => false

/-- The summary section of `ProjectPreview` (lines 54–58): the `div` with
class `mb-3 font-light` holding the summary-line paragraphs. -/
def isSummarySection : Node → Bool
  | .elem (.div (some "mb-3 font-light")) _ => true
  | _ => false

/-- A title section: the `CardTitle` component (lines 23–27). -/
def isTitleSection : Node → Bool
  | .elem .cardTitle _ => true
  | _ => false

/-- A date-range element: the `DateRange` component (lines 37–41). -/
def isDateRangeSection : Node → Bool
  | .dateRange _ _ _ => true
  | _ => false

/-- A summary-line paragraph: a plain `p` element (lines 48–50). -/
def isSummaryLine : Node → Bool
  | .elem (.p none) _ => true
  | _ => false

/-- A `HyperLink` component element (as built by `Greeting`, lines 51–61). -/
def isHyperLinkElement : Node → Bool
  | .elem (.hyperLink _ _) _ => true
  | _ => false

/-- Rendering the same entity twice in sequence, returning both outputs;
the component keeps no state between the calls (there is none to keep). -/
def renderTwice (project : Option Project) : Option Node × Option Node :=
  (ProjectPreview project, ProjectPreview project)

/-- The spec's scenario project: name "Demo", one summary line, no cover,
no tags, started 2023-01-01, ongoing. -/
def demoProject : Project :=
  { name := "Demo", summary := some [some "One line."], cover := none,
    tags := none, startDate := "2023-01-01", endDate := none }

/-- A concrete project whose `tags` field is present but the empty list. -/
def tagsEmptyProject : Project :=
  { name := "Demo", summary := none, cover := none, tags := some [],
    startDate := "2023-01-01", endDate := none }

/-- A concrete project whose `summary` field is present but the empty list. -/
def summaryEmptyProject : Project :=
  { name := "Demo", summary := some [], cover := none, tags := none,
    startDate := "2023-01-01", endDate := none }

/-- A concrete project with summary lines "a", "b", "c". -/
def abcProject : Project :=
  { name := "Demo", summary := some [some "a", some "b", some "c"], cover := none,
    tags := none, startDate := "2023-01-01", endDate := none }

/-- An optional string field carries no empty sentinel: absent, or present
and non-empty. -/
def optionalStringOk : Option String → Bool
  | none => true
  | some s => !(s == "")

/-- An optional list field carries no empty sentinel: absent, or present
and non-empty. -/
def optionalListOk {α : Type} : Option (List α) → Bool
  | none => true
  | some l => !l.isEmpty

/-- A profile satisfies the stated registry invariant: the required
`firstName` is populated and no optional field is present with a
null/empty sentinel value (empty string, empty list). -/
def sentinelFree (p : Profile) : Bool :=
  !(p.firstName == "") && optionalStringOk p.lastName && optionalStringOk p.position
    && optionalListOk p.summary && optionalListOk p.tags && optionalListOk p.socialLinks

/-- A summary-line paragraph contains no node satisfying `f` when `f`
rejects plain `p` elements and text leaves. -/
theorem containsIf_summaryLineNode (f : Node → Bool)
    (hp : ∀ cs, f (.elem (.p none) cs) = false) (ht : ∀ s, f (.text s) = false)
    (line : Option String) : containsIf f (summaryLineNode line) = false := by
  cases line <;> simp [summaryLineNode, containsIf, containsIfList, hp, ht]

/-- Mapped summary lines contain no node satisfying `f` when `f` rejects
plain `p` elements and text leaves. -/
theorem containsIfList_summaryLines (f : Node → Bool)
    (hp : ∀ cs, f (.elem (.p none) cs) = false) (ht : ∀ s, f (.text s) = false)
    (l : List (Option String)) : containsIfList f (l.map summaryLineNode) = false := by
  induction l with
  | nil => rfl
  | cons line rest ih =>
      simp [List.map, containsIfList, ih, containsIf_summaryLineNode f hp ht line]

/-- Collecting with a predicate that rejects plain `p` elements and text
leaves finds nothing in a summary-line paragraph. -/
theorem collectIf_summaryLineNode (f : Node → Bool)
    (hp : ∀ cs, f (.elem (.p none) cs) = false) (ht : ∀ s, f (.text s) = false)
    (line : Option String) : collectIf f (summaryLineNode line) = [] := by
  cases line <;> simp [summaryLineNode, collectIf, collectIfList, hp, ht]

/-- Collecting with a predicate that rejects plain `p` elements and text
leaves finds nothing in mapped summary lines. -/
theorem collectIfList_summaryLines (f : Node → Bool)
    (hp : ∀ cs, f (.elem (.p none) cs) = false) (ht : ∀ s, f (.text s) = false)
    (l : List (Option String)) : collectIfList f (l.map summaryLineNode) = [] := by
  induction l with
  | nil => rfl
  | cons line rest ih =>
      simp [List.map, collectIfList, ih, collectIf_summaryLineNode f hp ht line]

/-- Collecting summary-line paragraphs from one summary line yields exactly
that paragraph. -/
theorem collectIf_summaryLineNode_self (line : Option String) :
    collectIf isSummaryLine (summaryLineNode line) = [summaryLineNode line] := by
  cases line <;> simp [summaryLineNode, collectIf, collectIfList, isSummaryLine]

/-- Collecting summary-line paragraphs from mapped summary lines yields the
mapped lines themselves, in order. -/
theorem collectIfList_summaryLines_self (l : List (Option String)) :
    collectIfList isSummaryLine (l.map summaryLineNode) = l.map summaryLineNode := by
  induction l with
  | nil => rfl
  | cons line rest ih =>
      simp [List.map, collectIfList, ih, collectIf_summaryLineNode_self line]

/-- C1: rendering `ProjectPreview` with a null (absent) project produces an
empty render: the component returns `none`, raising no error and rendering
no placeholder. -/
theorem projectPreview_none_renders_nothing : ProjectPreview none = none := rfl

/-- C2: counterexample — for the concrete project whose `tags` field is
present but the empty list, the rendered output does contain a tags
section, refuting "tags section iff tags present and non-empty" as stated:
an empty JS array is truthy, so the guard on line 29 passes. -/
theorem projectPreview_tags_empty_yields_section :
    ¬ (renderContains isTagsSection (ProjectPreview (some tagsEmptyProject)) = true ↔
        (tagsEmptyProject.tags.isSome ∧ tagsEmptyProject.tags.getD [] ≠ [])) := by
  decide

/-- C2 (amended): for every non-null project, the output contains a tags
section iff the `tags` field is present (not absent), regardless of whether
the present list is empty. -/
theorem projectPreview_tags_section_iff_present (p : Project) :
    renderContains isTagsSection (ProjectPreview (some p)) = true ↔ p.tags.isSome := by
  obtain ⟨name, summary, cover, tags, sd, ed⟩ := p
  cases summary <;> cases cover <;> cases tags <;>
    simp [ProjectPreview, renderContains, containsIf, containsIfList, isTagsSection,
      containsIfList_summaryLines isTagsSection (fun _ => rfl) (fun _ => rfl)]

/-- C3: counterexample — for the concrete project whose `summary` field is
present but the empty list, the rendered output does contain a summary
section (an empty `div`), refuting "summary section iff summary non-empty;
sections are never rendered empty": an empty JS array is truthy, so the
guards on lines 46 and 54 pass and the section div is emitted with no
paragraph children. -/
theorem projectPreview_summary_empty_yields_section :
    ¬ (renderContains isSummarySection (ProjectPreview (some summaryEmptyProject)) = true ↔
        summaryEmptyProject.summary.getD [] ≠ []) ∧
    renderCollect isSummarySection (ProjectPreview (some summaryEmptyProject)) =
      [.elem (.div (some "mb-3 font-light")) []] :=
  ⟨by decide, rfl⟩

/-- C3 (amended): for every non-null project, the output contains a summary
section iff the `summary` field is present (not absent); when it is present
but empty the section is rendered as an empty div. -/
theorem projectPreview_summary_section_iff_present (p : Project) :
    renderContains isSummarySection (ProjectPreview (some p)) = true ↔ p.summary.isSome := by
  obtain ⟨name, summary, cover, tags, sd, ed⟩ := p
  cases summary <;> cases cover <;> cases tags <;>
    simp [ProjectPreview, renderContains, containsIf, containsIfList, isSummarySection,
      containsIfList_summaryLines isSummarySection (fun _ => rfl) (fun _ => rfl)]

/-- C4: for every non-null project, the rendered output contains exactly
one title section, showing the project's name, and always contains exactly
one date-range element, built from `startDate` and `endDate`, whatever the
optional fields are. -/
theorem projectPreview_title_once_dates_always (p : Project) :
    renderCollect isTitleSection (ProjectPreview (some p)) =
      [.elem .cardTitle [.text p.name]] ∧
    renderCollect isDateRangeSection (ProjectPreview (some p)) =
      [.dateRange p.startDate p.endDate "text-sm text-gray-600 font-light"] := by
  obtain ⟨name, summary, cover, tags, sd, ed⟩ := p
  constructor <;>
    cases summary <;> cases cover <;> cases tags <;>
      simp [ProjectPreview, renderCollect, collectIf, collectIfList,
        isTitleSection, isDateRangeSection,
        collectIfList_summaryLines isTitleSection (fun _ => rfl) (fun _ => rfl),
        collectIfList_summaryLines isDateRangeSection (fun _ => rfl) (fun _ => rfl)]

/-- C5: `ProjectPreview` is deterministic and effect-free: it is a pure
function of the entity (including the null case), so rendering twice in
sequence returns identical outputs, and equal inputs give equal outputs. -/
theorem projectPreview_deterministic (p q : Option Project) (h : p = q) :
    (renderTwice p).1 = (renderTwice p).2 ∧ ProjectPreview p = ProjectPreview q := by
  subst h; exact ⟨rfl, rfl⟩

/-- C5 witness: the determinism theorem applied at the spec's concrete
scenario project. -/
theorem projectPreview_deterministic_witness :
    (renderTwice (some demoProject)).1 = (renderTwice (some demoProject)).2 ∧
    ProjectPreview (some demoProject) = ProjectPreview (some demoProject) :=
  projectPreview_deterministic (some demoProject) (some demoProject) rfl

/-- C6: for every non-null project whose `summary` field is a list of
lines, the rendered paragraph sub-elements, in document order, are exactly
the input lines mapped in source order to their paragraph elements — the
sequence is derived from the input list alone. -/
theorem projectPreview_summary_lines_ordered (p : Project) (lines : List (Option String))
    (h : p.summary = some lines) :
    renderCollect isSummaryLine (ProjectPreview (some p)) = lines.map summaryLineNode := by
  obtain ⟨name, summary, cover, tags, sd, ed⟩ := p
  obtain rfl : summary = some lines := h
  cases cover <;> cases tags <;>
    simp [ProjectPreview, renderCollect, collectIf, collectIfList, isSummaryLine,
      collectIfList_summaryLines_self]

/-- C6 witness: the order theorem applied at the concrete summary lines
"a", "b", "c". -/
theorem projectPreview_summary_lines_ordered_witness :
    renderCollect isSummaryLine (ProjectPreview (some abcProject)) =
      [some "a", some "b", some "c"].map summaryLineNode :=
  projectPreview_summary_lines_ordered abcProject [some "a", some "b", some "c"] rfl

/-- C7: every constructible `Publication` value carries a `publisher` drawn
from the closed, fixed `Publisher` enumeration — no publication can carry a
publisher outside that set. -/
theorem publication_publisher_in_closed_enum (pub : Publication) :
    pub.publisher ∈ Publisher.all := by
  cases pub.publisher <;> decide

/-- C8: counterexample — the minimal profile registry instance is not
sentinel-free: it sets the optional `position` to the empty string and the
optional `tags` to the empty list instead of omitting them, refuting "no
optional field is set to a null or empty sentinel" for the content
registries. -/
theorem profileCn_uses_empty_sentinels :
    sentinelFree profileCn = false ∧
    profileCn.position = some "" ∧ profileCn.tags = some [] :=
  ⟨rfl, rfl, rfl⟩

/-- C8 (amended): both registry profiles populate the required `firstName`,
and the minimal profile omits its genuinely inapplicable fields
(`lastName`, `location`, `socialLinks`); but absence is not always
signalled by omission: the minimal profile sets `position` to the empty
string and both profiles set `tags` to the empty list. -/
theorem profile_registries_sentinel_use (sl : List Link) :
    (profileEn sl).firstName ≠ "" ∧ profileCn.firstName ≠ "" ∧
    profileCn.lastName = none ∧ profileCn.location = none ∧
    profileCn.socialLinks = none ∧ profileCn.position = some "" ∧
    (profileEn sl).tags = some [] ∧ profileCn.tags = some [] := by
  refine ⟨fun h => ?_, fun h => ?_, rfl, rfl, rfl, rfl, rfl, rfl⟩
  · exact (by decide : ¬ ("Oleksii" = "")) h
  · exact (by decide : ¬ ("AI时代的程序员" = "")) h

/-- C9: `Greeting` is a constant component: its output does not depend on
the route registry it reads, it is always the same fixed paragraph of the
two greeting lines, and the hyperlink span elements it constructs
internally never occur in its returned tree. -/
theorem greeting_constant_and_linkless (r r' : Routes) :
    Greeting r = Greeting r' ∧
    Greeting r = .elem (.p (some "font-light")) [.text greetingLine1, .text greetingLine2] ∧
    containsIf isHyperLinkElement (Greeting r) = false :=
  ⟨rfl, rfl, rfl⟩

/-- C10: for every non-null project the rendered card has a fixed layout:
the cover (when present) is the sole child of the media slot, and the
content slot holds, in order, the title, then the summary section when
present, then the tags section when present, then the date-range section
last. -/
theorem projectPreview_section_order (p : Project) :
    ProjectPreview (some p) =
      some (.elem .card
        [.elem .cardMedia ((p.cover.map Node.fluidImage).toList),
         .elem .cardContent
           ([Node.elem .cardTitle [.text p.name]]
             ++ ((p.summary.map (fun lines =>
                   Node.elem (.div (some "mb-3 font-light")) (lines.map summaryLineNode))).toList)
             ++ ((p.tags.map (fun tags => Node.elem (.div none) [.tagsOf tags])).toList)
             ++ [Node.elem (.div (some "mb-3"))
                   [.dateRange p.startDate p.endDate "text-sm text-gray-600 font-light"]])]) := by
  obtain ⟨name, summary, cover, tags, sd, ed⟩ := p
  cases summary <;> cases cover <;> cases tags <;> rfl

end Portfolio
